import Mathlib

/-!
Verification development for the SDL3 sprite-batch sample
(`src/main.cpp`).  The per-frame sprite build loop, the app callbacks
(`SDL_AppInit`, `SDL_AppEvent`, `SDL_AppIterate`) and the present-mode
negotiation are embedded shallowly.  Float fields are modelled as exact
rationals; machine integers as `Nat` with explicit `% 2 ^ 64` where the
source wraps.  External SDL calls that can fail are modelled by boolean
success flags threaded through an environment record.
-/

/-- Result codes of the SDL application callbacks
(`SDL_APP_CONTINUE`, `SDL_APP_SUCCESS`, `SDL_APP_FAILURE`). -/
inductive SDLAppResult where
  | continue
  | success
  | failure
deriving DecidableEq, Repr

/-- GPU present modes relevant to the negotiation in `SDL_AppInit`
(main.cpp lines 97-118). -/
inductive PresentMode where
  | immediate
  | mailbox
  | vsync
deriving DecidableEq, Repr

/-- The per-sprite record uploaded each frame (main.cpp lines 32-39).
Every `float` field is modelled as an exact rational. -/
structure SpriteInstance where
  x : ℚ
  y : ℚ
  z : ℚ
  rotation : ℚ
  w : ℚ
  h : ℚ
  padding_a : ℚ
  padding_b : ℚ
  tex_u : ℚ
  tex_v : ℚ
  tex_w : ℚ
  tex_h : ℚ
  r : ℚ
  g : ℚ
  b : ℚ
  a : ℚ
deriving DecidableEq, Inhabited, Repr

/-- `static const Uint32 SPRITE_COUNT = 8192` (main.cpp line 41). -/
def SPRITE_COUNT : ℕ := 8192

/-- `constexpr uint32_t windowStartWidth = 640` (main.cpp line 12). -/
def windowStartWidth : ℕ := 640

/-- `constexpr uint32_t windowStartHeight = 480` (main.cpp line 13). -/
def windowStartHeight : ℕ := 480

/-- The exact rational value of the binary32 constant `SDL_PI_F`
(the `float` nearest to pi, `0x1.921fb6p+1 = 13176795 * 2 ^ (-22)`). -/
def SDL_PI_F : ℚ := 13176795 / 4194304

/-- One step of the 64-bit linear congruential generator behind
`SDL_rand_bits` in SDL3 (`state = state * 0xff1cd035 + 0x05`,
wrapping at 2^64).  The sample only calls it through `SDL_rand` /
`SDL_randf`; the state is seeded by `SDL_srand(0)` at line 120. -/
def nextState (s : ℕ) : ℕ := (s * 0xff1cd035 + 0x05) % 2 ^ 64

/-- `SDL_rand_bits_r`: advance the state and return its top 32 bits. -/
def rand_bits (s : ℕ) : ℕ × ℕ := (nextState s / 2 ^ 32, nextState s)

/-- `SDL_rand_r(state, n)` for nonnegative `n`: draw 32 bits and return
`(bits * n) >> 32`, a value in `[0, n)`. -/
def rand_r (s : ℕ) (n : ℕ) : ℕ × ℕ :=
  ((rand_bits s).1 * n / 2 ^ 32, (rand_bits s).2)

/-- `SDL_randf_r`: draw 32 bits, keep the top 24, scale by `2 ^ (-24)`;
the result lies in `[0, 1)`. -/
def randf_r (s : ℕ) : ℚ × ℕ :=
  ((((rand_bits s).1 / 2 ^ 8 : ℕ) : ℚ) / 2 ^ 24, (rand_bits s).2)

/-- `static float uCoords[4] = { 0.0f, 0.5f, 0.0f, 0.5f }` (line 378). -/
def uCoords : List ℚ := [0, 1/2, 0, 1/2]

/-- `static float vCoords[4] = { 0.0f, 0.0f, 0.5f, 0.5f }` (line 379). -/
def vCoords : List ℚ := [0, 0, 1/2, 1/2]

/-- One iteration of the build loop body (main.cpp lines 420-437):
draw `ravioli = SDL_rand(4)`, then x, y, rotation, and fill the slot.
The two padding fields are not assigned by the loop, so they keep the
value the slot held before (`old`). -/
def buildRecord (old : SpriteInstance) (s : ℕ) : SpriteInstance × ℕ :=
  let d1 := rand_r s 4
  let d2 := rand_r d1.2 640
  let d3 := rand_r d2.2 480
  let d4 := randf_r d3.2
  ({ x := (d2.1 : ℚ)
     y := (d3.1 : ℚ)
     z := 0
     rotation := d4.1 * SDL_PI_F * 2
     w := 32
     h := 32
     padding_a := old.padding_a
     padding_b := old.padding_b
     tex_u := uCoords.getD d1.1 0
     tex_v := vCoords.getD d1.1 0
     tex_w := 1/2
     tex_h := 1/2
     r := 1
     g := 1
     b := 1
     a := 1 }, d4.2)

/-- The whole build loop `for (i = 0; i < SPRITE_COUNT; i++)`:
rewrite the mapped buffer slot by slot, threading the generator state
left to right. -/
def buildSprites : List SpriteInstance → ℕ → List SpriteInstance × ℕ
  | [], s => ([], s)
  | old :: rest, s =>
    let hd := buildRecord old s
    let tl := buildSprites rest hd.2
    (hd.1 :: tl.1, tl.2)

/-- Generator state advance caused by building one record
(four `SDL_rand_bits` draws). -/
def stepRecord (s : ℕ) : ℕ := nextState (nextState (nextState (nextState s)))

/-- Generator state just before the build loop writes slot `i`. -/
def recState (s : ℕ) : ℕ → ℕ
  | 0 => s
  | i + 1 => stepRecord (recState s i)

/-- The 14 fields the build loop assigns, as a tuple (everything except
the two padding fields). -/
def writtenFields (sp : SpriteInstance) :
    ℚ × ℚ × ℚ × ℚ × ℚ × ℚ × ℚ × ℚ × ℚ × ℚ × ℚ × ℚ × ℚ × ℚ :=
  (sp.x, sp.y, sp.z, sp.rotation, sp.w, sp.h, sp.tex_u, sp.tex_v,
   sp.tex_w, sp.tex_h, sp.r, sp.g, sp.b, sp.a)

/-- Events as far as this program inspects them: `SDL_EVENT_QUIT` or
anything else. -/
inductive SDLEvent where
  | quit
  | other
deriving DecidableEq

/-- The mutable application state relevant to the frame loop: the
`app_quit` field of `AppContext` (line 23), the RNG state, and the
contents of the sprite transfer buffer. -/
structure AppState where
  app_quit : SDLAppResult
  rngState : ℕ
  spriteBuffer : List SpriteInstance
deriving DecidableEq

/-- `SDL_AppEvent` (main.cpp lines 368-376): a quit event latches
`app_quit := SDL_APP_SUCCESS`; the callback always returns
`SDL_APP_CONTINUE`. -/
def SDL_AppEvent (app : AppState) (ev : SDLEvent) : AppState × SDLAppResult :=
  if ev = SDLEvent.quit then
    ({ app with app_quit := SDLAppResult.success }, SDLAppResult.continue)
  else (app, SDLAppResult.continue)

/-- Success flags of the fallible backend calls one frame makes:
command-buffer acquisition, swapchain acquisition, and whether the
acquired swapchain texture is non-NULL. -/
structure FrameEnv where
  cmdbufOk : Bool
  acquireOk : Bool
  hasTexture : Bool
deriving DecidableEq

/-- Outcome of one `SDL_AppIterate` call: the new state, the returned
result code, and whether `SDL_SubmitGPUCommandBuffer` was reached. -/
structure IterResult where
  state : AppState
  result : SDLAppResult
  submitted : Bool
deriving DecidableEq

/-- `SDL_AppIterate` (main.cpp lines 380-515): fail fast if the command
buffer or the swapchain acquisition fails; if the swapchain texture is
non-NULL, run the build loop and the upload/draw passes; submit the
command buffer; return `app->app_quit`. -/
def SDL_AppIterate (app : AppState) (env : FrameEnv) : IterResult :=
  if !env.cmdbufOk then ⟨app, SDLAppResult.failure, false⟩
  else if !env.acquireOk then ⟨app, SDLAppResult.failure, false⟩
  else if env.hasTexture then
    let built := buildSprites app.spriteBuffer app.rngState
    ⟨{ app with spriteBuffer := built.1, rngState := built.2 },
      app.app_quit, true⟩
  else ⟨app, app.app_quit, true⟩

/-- Success flags of the fallible calls made during `SDL_AppInit`, in
source order.  `vertShaderOk` and `fragShaderOk` model whether the two
`LoadShader` calls (lines 123-141) return a non-NULL shader; the source
never tests these two results. -/
structure InitEnv where
  sdlInitOk : Bool
  ttfInitOk : Bool
  windowOk : Bool
  basePathOk : Bool
  deviceOk : Bool
  claimOk : Bool
  supportsImmediate : Bool
  supportsMailbox : Bool
  vertShaderOk : Bool
  fragShaderOk : Bool
  imageOk : Bool
  fontOk : Bool
  audioOk : Bool
  mixOpenOk : Bool
  musicOk : Bool
deriving DecidableEq

/-- What `SDL_AppInit` produces: its result code and the present mode
passed to `SDL_SetGPUSwapchainParameters` (`none` when init fails
before reaching that call). -/
structure InitOutcome where
  result : SDLAppResult
  swapchainMode : Option PresentMode
deriving DecidableEq

/-- Present-mode negotiation (main.cpp lines 97-111): start from VSYNC,
take IMMEDIATE if supported, else MAILBOX if supported. -/
def negotiatePresentMode (supportsImmediate supportsMailbox : Bool) :
    PresentMode :=
  if supportsImmediate then PresentMode.immediate
  else if supportsMailbox then PresentMode.mailbox
  else PresentMode.vsync

/-- `SDL_AppInit` (main.cpp lines 49-366) reduced to its control flow:
each `if (not ok) return SDL_Fail()` check in source order.  The two
`LoadShader` results and the pipeline are created between the window
claim and the image load but are never checked, so `vertShaderOk` and
`fragShaderOk` do not influence the outcome.  The swapchain present
mode is set right after the window claim succeeds, before any of the
asset loads. -/
def SDL_AppInit (e : InitEnv) : InitOutcome :=
  if !e.sdlInitOk then ⟨SDLAppResult.failure, none⟩
  else if !e.ttfInitOk then ⟨SDLAppResult.failure, none⟩
  else if !e.windowOk then ⟨SDLAppResult.failure, none⟩
  else if !e.basePathOk then ⟨SDLAppResult.failure, none⟩
  else if !e.deviceOk then ⟨SDLAppResult.failure, none⟩
  else if !e.claimOk then ⟨SDLAppResult.failure, none⟩
  else
    let mode := negotiatePresentMode e.supportsImmediate e.supportsMailbox
    if !e.imageOk then ⟨SDLAppResult.failure, some mode⟩
    else if !e.fontOk then ⟨SDLAppResult.failure, some mode⟩
    else if !e.audioOk then ⟨SDLAppResult.failure, some mode⟩
    else if !e.mixOpenOk then ⟨SDLAppResult.failure, some mode⟩
    else if !e.musicOk then ⟨SDLAppResult.failure, some mode⟩
    else ⟨SDLAppResult.continue, some mode⟩

/-- The sequence of sprite arrays produced by `n` consecutive frames in
which the whole frame path succeeds and the swapchain texture is
non-NULL (the frames in which the build step runs). -/
def runFrames (app : AppState) : ℕ → List (List SpriteInstance)
  | 0 => []
  | n + 1 =>
    let out := SDL_AppIterate app ⟨true, true, true⟩
    out.state.spriteBuffer :: runFrames out.state n

/-! ### Basic lemmas about the random draws and the build loop -/

lemma nextState_lt (s : ℕ) : nextState s < 2 ^ 64 := by
  unfold nextState
  exact Nat.mod_lt _ (by norm_num)

lemma rand_bits_lt (s : ℕ) : (rand_bits s).1 < 2 ^ 32 := by
  unfold rand_bits
  have h := nextState_lt s
  have : nextState s / 2 ^ 32 < 2 ^ 32 := by
    apply Nat.div_lt_of_lt_mul
    calc nextState s < 2 ^ 64 := h
    _ = 2 ^ 32 * 2 ^ 32 := by norm_num
  simpa using this

lemma rand_r_lt (s n : ℕ) (hn : 0 < n) : (rand_r s n).1 < n := by
  have hb := rand_bits_lt s
  have hlt : (rand_bits s).1 * n < 2 ^ 32 * n :=
    (Nat.mul_lt_mul_right hn).mpr hb
  simpa [rand_r] using Nat.div_lt_of_lt_mul hlt

lemma randf_r_nonneg (s : ℕ) : 0 ≤ (randf_r s).1 := by
  unfold randf_r
  positivity

lemma randf_r_le (s : ℕ) : (randf_r s).1 ≤ (2 ^ 24 - 1) / 2 ^ 24 := by
  unfold randf_r
  have hb := rand_bits_lt s
  have hm : (rand_bits s).1 / 2 ^ 8 ≤ 2 ^ 24 - 1 := by
    have : (rand_bits s).1 / 2 ^ 8 < 2 ^ 24 := by
      apply Nat.div_lt_of_lt_mul
      calc (rand_bits s).1 < 2 ^ 32 := hb
      _ = 2 ^ 24 * 2 ^ 8 := by norm_num
    omega
  have hq : (((rand_bits s).1 / 2 ^ 8 : ℕ) : ℚ) ≤ ((2 ^ 24 - 1 : ℕ) : ℚ) := by
    exact_mod_cast hm
  have h24 : ((2 ^ 24 - 1 : ℕ) : ℚ) = 2 ^ 24 - 1 := by norm_num
  rw [h24] at hq
  have h0 : (0 : ℚ) ≤ 2 ^ 24 := by norm_num
  exact div_le_div_of_nonneg_right hq h0

lemma buildRecord_snd (old : SpriteInstance) (s : ℕ) :
    (buildRecord old s).2 = stepRecord s := rfl

lemma buildSprites_nil (s : ℕ) : buildSprites [] s = ([], s) := rfl

lemma buildSprites_cons (old : SpriteInstance) (rest : List SpriteInstance)
    (s : ℕ) :
    buildSprites (old :: rest) s =
      ((buildRecord old s).1 ::
         (buildSprites rest (stepRecord s)).1,
       (buildSprites rest (stepRecord s)).2) := rfl

lemma buildSprites_length (buf : List SpriteInstance) (s : ℕ) :
    (buildSprites buf s).1.length = buf.length := by
  induction buf generalizing s with
  | nil => rfl
  | cons old rest ih =>
    rw [buildSprites_cons]
    simp [ih]

lemma recState_step (s : ℕ) (i : ℕ) :
    recState (stepRecord s) i = stepRecord (recState s i) := by
  induction i with
  | zero => rfl
  | succ i ih => simp [recState, ih]

lemma buildSprites_getD (buf : List SpriteInstance) (s i : ℕ)
    (h : i < buf.length) :
    (buildSprites buf s).1.getD i default =
      (buildRecord (buf.getD i default) (recState s i)).1 := by
  induction buf generalizing s i with
  | nil => simp at h
  | cons old rest ih =>
    rw [buildSprites_cons]
    cases i with
    | zero => simp [recState]
    | succ i =>
      simp only [List.getD_cons_succ]
      have hi : i < rest.length := by
        simpa using Nat.lt_of_succ_lt_succ h
      rw [ih (stepRecord s) i hi, recState_step]
      rfl

lemma mem_buildSprites (buf : List SpriteInstance) (s : ℕ)
    (sp : SpriteInstance) (h : sp ∈ (buildSprites buf s).1) :
    ∃ old st, sp = (buildRecord old st).1 := by
  induction buf generalizing s with
  | nil => simp [buildSprites_nil] at h
  | cons old rest ih =>
    rw [buildSprites_cons] at h
    rcases List.mem_cons.mp h with h1 | h2
    · exact ⟨old, s, h1⟩
    · exact ih (stepRecord s) h2

/-! ### Per-record properties of the build loop body -/

lemma buildRecord_uv (old : SpriteInstance) (s : ℕ) :
    (((buildRecord old s).1.tex_u = 0 ∧ (buildRecord old s).1.tex_v = 0) ∨
     ((buildRecord old s).1.tex_u = 1/2 ∧ (buildRecord old s).1.tex_v = 0) ∨
     ((buildRecord old s).1.tex_u = 0 ∧ (buildRecord old s).1.tex_v = 1/2) ∨
     ((buildRecord old s).1.tex_u = 1/2 ∧ (buildRecord old s).1.tex_v = 1/2))
    ∧ (buildRecord old s).1.tex_w = 1/2 ∧ (buildRecord old s).1.tex_h = 1/2 := by
  have h4 : (rand_r s 4).1 < 4 := rand_r_lt s 4 (by norm_num)
  have hcases : (rand_r s 4).1 = 0 ∨ (rand_r s 4).1 = 1 ∨
      (rand_r s 4).1 = 2 ∨ (rand_r s 4).1 = 3 := by omega
  refine ⟨?_, rfl, rfl⟩
  rcases hcases with h | h | h | h <;>
    simp [buildRecord, uCoords, vCoords, h]

lemma buildRecord_x_bounds (old : SpriteInstance) (s : ℕ) :
    0 ≤ (buildRecord old s).1.x ∧ (buildRecord old s).1.x < 640 := by
  have hx : (rand_r (rand_r s 4).2 640).1 < 640 :=
    rand_r_lt _ 640 (by norm_num)
  constructor
  · simp [buildRecord]
  · show ((rand_r (rand_r s 4).2 640).1 : ℚ) < 640
    exact_mod_cast hx

lemma buildRecord_y_bounds (old : SpriteInstance) (s : ℕ) :
    0 ≤ (buildRecord old s).1.y ∧ (buildRecord old s).1.y < 480 := by
  have hy : (rand_r (rand_r (rand_r s 4).2 640).2 480).1 < 480 :=
    rand_r_lt _ 480 (by norm_num)
  constructor
  · simp [buildRecord]
  · show ((rand_r (rand_r (rand_r s 4).2 640).2 480).1 : ℚ) < 480
    exact_mod_cast hy

lemma buildRecord_rotation_nonneg (old : SpriteInstance) (s : ℕ) :
    0 ≤ (buildRecord old s).1.rotation := by
  show 0 ≤ (randf_r (rand_r (rand_r (rand_r s 4).2 640).2 480).2).1
      * SDL_PI_F * 2
  have h0 := randf_r_nonneg (rand_r (rand_r (rand_r s 4).2 640).2 480).2
  have hpi : (0 : ℚ) ≤ SDL_PI_F := by norm_num [SDL_PI_F]
  positivity

lemma buildRecord_rotation_lt (old : SpriteInstance) (s : ℕ) :
    ((buildRecord old s).1.rotation : ℝ) < 2 * Real.pi := by
  have hle := randf_r_le (rand_r (rand_r (rand_r s 4).2 640).2 480).2
  have h0 := randf_r_nonneg (rand_r (rand_r (rand_r s 4).2 640).2 480).2
  have hq : (buildRecord old s).1.rotation ≤
      (2 ^ 24 - 1) / 2 ^ 24 * SDL_PI_F * 2 := by
    show (randf_r (rand_r (rand_r (rand_r s 4).2 640).2 480).2).1
        * SDL_PI_F * 2 ≤ (2 ^ 24 - 1) / 2 ^ 24 * SDL_PI_F * 2
    have hpi : (0 : ℚ) ≤ SDL_PI_F * 2 := by norm_num [SDL_PI_F]
    calc (randf_r (rand_r (rand_r (rand_r s 4).2 640).2 480).2).1
          * SDL_PI_F * 2
        = (randf_r (rand_r (rand_r (rand_r s 4).2 640).2 480).2).1
          * (SDL_PI_F * 2) := by ring
      _ ≤ (2 ^ 24 - 1) / 2 ^ 24 * (SDL_PI_F * 2) :=
          mul_le_mul_of_nonneg_right hle hpi
      _ = (2 ^ 24 - 1) / 2 ^ 24 * SDL_PI_F * 2 := by ring
  have hqr : ((buildRecord old s).1.rotation : ℝ) ≤
      (((2 ^ 24 - 1) / 2 ^ 24 * SDL_PI_F * 2 : ℚ) : ℝ) := by
    exact_mod_cast hq
  have hbound : (((2 ^ 24 - 1) / 2 ^ 24 * SDL_PI_F * 2 : ℚ) : ℝ) <
      2 * 3.14159265358979323846 := by
    norm_num [SDL_PI_F]
  have hpi20 : (3.14159265358979323846 : ℝ) < Real.pi := Real.pi_gt_d20
  linarith

lemma buildRecord_fixed (old : SpriteInstance) (s : ℕ) :
    (buildRecord old s).1.z = 0 ∧ (buildRecord old s).1.w = 32 ∧
    (buildRecord old s).1.h = 32 ∧ (buildRecord old s).1.r = 1 ∧
    (buildRecord old s).1.g = 1 ∧ (buildRecord old s).1.b = 1 ∧
    (buildRecord old s).1.a = 1 :=
  ⟨rfl, rfl, rfl, rfl, rfl, rfl, rfl⟩

lemma buildRecord_padding (old : SpriteInstance) (s : ℕ) :
    (buildRecord old s).1.padding_a = old.padding_a ∧
    (buildRecord old s).1.padding_b = old.padding_b :=
  ⟨rfl, rfl⟩

lemma buildRecord_written_independent (o1 o2 : SpriteInstance) (s : ℕ) :
    writtenFields (buildRecord o1 s).1 = writtenFields (buildRecord o2 s).1 :=
  rfl

/-! ### Claim theorems -/

/-- C1: in every frame in which the build step runs (command buffer and
swapchain acquired, texture non-NULL), the build loop writes a record
into every one of the exactly `SPRITE_COUNT = 8192` slots of the sprite
instance array, no fewer and no more: the resulting array still has
exactly 8192 records, and slot `i` holds precisely the record that the
loop body produces for slot `i` from the generator state reached after
`i` earlier slots. -/
theorem buildLoop_fills_every_slot (app : AppState) (env : FrameEnv)
    (hlen : app.spriteBuffer.length = SPRITE_COUNT)
    (hc : env.cmdbufOk = true) (ha : env.acquireOk = true)
    (ht : env.hasTexture = true) :
    (SDL_AppIterate app env).state.spriteBuffer.length = SPRITE_COUNT ∧
    ∀ i, i < SPRITE_COUNT →
      (SDL_AppIterate app env).state.spriteBuffer.getD i default =
        (buildRecord (app.spriteBuffer.getD i default)
          (recState app.rngState i)).1 := by
  have hstep : (SDL_AppIterate app env).state.spriteBuffer =
      (buildSprites app.spriteBuffer app.rngState).1 := by
    simp [SDL_AppIterate, hc, ha, ht]
  rw [hstep]
  refine ⟨by rw [buildSprites_length, hlen], ?_⟩
  intro i hi
  exact buildSprites_getD _ _ i (by rw [hlen]; exact hi)

theorem buildLoop_fills_every_slot_witness :
    ((AppState.mk SDLAppResult.continue 0
        (List.replicate SPRITE_COUNT default)).spriteBuffer.length
      = SPRITE_COUNT) ∧
    ((SDL_AppIterate
        (AppState.mk SDLAppResult.continue 0
          (List.replicate SPRITE_COUNT default))
        ⟨true, true, true⟩).state.spriteBuffer.length = SPRITE_COUNT ∧
     ∀ i, i < SPRITE_COUNT →
      (SDL_AppIterate
        (AppState.mk SDLAppResult.continue 0
          (List.replicate SPRITE_COUNT default))
        ⟨true, true, true⟩).state.spriteBuffer.getD i default =
        (buildRecord
          ((AppState.mk SDLAppResult.continue 0
            (List.replicate SPRITE_COUNT default)).spriteBuffer.getD i
              default)
          (recState
            (AppState.mk SDLAppResult.continue 0
              (List.replicate SPRITE_COUNT default)).rngState i)).1) :=
  ⟨by simp, buildLoop_fills_every_slot _ _ (by simp) rfl rfl rfl⟩

/-- C2: every record of a filled sprite array has its UV origin among
exactly the four atlas-quadrant pairs (0,0), (1/2,0), (0,1/2),
(1/2,1/2), and its UV extent is always (1/2, 1/2).  (The quadrant index
is one draw of `SDL_rand(4)`; that the four outcomes are equally likely
is a distributional property of the SDL generator, outside this
embedding.) -/
theorem record_uv_quadrants (buf : List SpriteInstance) (s : ℕ)
    (sp : SpriteInstance) (hm : sp ∈ (buildSprites buf s).1) :
    ((sp.tex_u = 0 ∧ sp.tex_v = 0) ∨ (sp.tex_u = 1/2 ∧ sp.tex_v = 0) ∨
     (sp.tex_u = 0 ∧ sp.tex_v = 1/2) ∨
     (sp.tex_u = 1/2 ∧ sp.tex_v = 1/2)) ∧
    sp.tex_w = 1/2 ∧ sp.tex_h = 1/2 := by
  obtain ⟨old, st, rfl⟩ := mem_buildSprites buf s sp hm
  exact buildRecord_uv old st

theorem record_uv_quadrants_witness :
    ((buildRecord default 0).1 ∈
        (buildSprites [(default : SpriteInstance)] 0).1) ∧
    ((((buildRecord default 0).1.tex_u = 0 ∧
        (buildRecord default 0).1.tex_v = 0) ∨
      ((buildRecord default 0).1.tex_u = 1/2 ∧
        (buildRecord default 0).1.tex_v = 0) ∨
      ((buildRecord default 0).1.tex_u = 0 ∧
        (buildRecord default 0).1.tex_v = 1/2) ∨
      ((buildRecord default 0).1.tex_u = 1/2 ∧
        (buildRecord default 0).1.tex_v = 1/2)) ∧
     (buildRecord default 0).1.tex_w = 1/2 ∧
     (buildRecord default 0).1.tex_h = 1/2) := by
  have hm : (buildRecord default 0).1 ∈
      (buildSprites [(default : SpriteInstance)] 0).1 := by
    rw [buildSprites_cons]
    exact List.mem_cons_self _ _
  exact ⟨hm, record_uv_quadrants [default] 0 _ hm⟩

/-- C3: every record of a filled sprite array has
`x ∈ [0, windowStartWidth)`, `y ∈ [0, windowStartHeight)` (the fixed
640x480 logical coordinate system the build loop and the orthographic
camera use), and `rotation ∈ [0, 2 pi)`.  (That the positions are
uniformly distributed is a distributional property of the SDL generator,
outside this embedding; the loop draws `SDL_rand(640)` and
`SDL_rand(480)`.) -/
theorem record_position_rotation_bounds (buf : List SpriteInstance)
    (s : ℕ) (sp : SpriteInstance) (hm : sp ∈ (buildSprites buf s).1) :
    (0 ≤ sp.x ∧ sp.x < (windowStartWidth : ℚ)) ∧
    (0 ≤ sp.y ∧ sp.y < (windowStartHeight : ℚ)) ∧
    (0 ≤ sp.rotation ∧ (sp.rotation : ℝ) < 2 * Real.pi) := by
  obtain ⟨old, st, rfl⟩ := mem_buildSprites buf s sp hm
  have hx := buildRecord_x_bounds old st
  have hy := buildRecord_y_bounds old st
  have hw : (windowStartWidth : ℚ) = 640 := by norm_num [windowStartWidth]
  have hh : (windowStartHeight : ℚ) = 480 := by
    norm_num [windowStartHeight]
  refine ⟨⟨hx.1, by rw [hw]; exact hx.2⟩, ⟨hy.1, by rw [hh]; exact hy.2⟩,
    buildRecord_rotation_nonneg old st, buildRecord_rotation_lt old st⟩

theorem record_position_rotation_bounds_witness :
    ((buildRecord default 1).1 ∈
        (buildSprites [(default : SpriteInstance)] 1).1) ∧
    ((0 ≤ (buildRecord default 1).1.x ∧
        (buildRecord default 1).1.x < (windowStartWidth : ℚ)) ∧
     (0 ≤ (buildRecord default 1).1.y ∧
        (buildRecord default 1).1.y < (windowStartHeight : ℚ)) ∧
     (0 ≤ (buildRecord default 1).1.rotation ∧
        ((buildRecord default 1).1.rotation : ℝ) < 2 * Real.pi)) := by
  have hm : (buildRecord default 1).1 ∈
      (buildSprites [(default : SpriteInstance)] 1).1 := by
    rw [buildSprites_cons]
    exact List.mem_cons_self _ _
  exact ⟨hm, record_position_rotation_bounds [default] 1 _ hm⟩

/-- C4: every record of a filled sprite array has depth `z = 0`, the
fixed 32x32 logical size (`w = 32`, `h = 32`), and full-intensity
opaque white color `(r, g, b, a) = (1, 1, 1, 1)`. -/
theorem record_depth_size_color (buf : List SpriteInstance) (s : ℕ)
    (sp : SpriteInstance) (hm : sp ∈ (buildSprites buf s).1) :
    sp.z = 0 ∧ sp.w = 32 ∧ sp.h = 32 ∧
    sp.r = 1 ∧ sp.g = 1 ∧ sp.b = 1 ∧ sp.a = 1 := by
  obtain ⟨old, st, rfl⟩ := mem_buildSprites buf s sp hm
  exact buildRecord_fixed old st

theorem record_depth_size_color_witness :
    ((buildRecord default 5).1 ∈
        (buildSprites [(default : SpriteInstance)] 5).1) ∧
    ((buildRecord default 5).1.z = 0 ∧ (buildRecord default 5).1.w = 32 ∧
     (buildRecord default 5).1.h = 32 ∧ (buildRecord default 5).1.r = 1 ∧
     (buildRecord default 5).1.g = 1 ∧ (buildRecord default 5).1.b = 1 ∧
     (buildRecord default 5).1.a = 1) := by
  have hm : (buildRecord default 5).1 ∈
      (buildSprites [(default : SpriteInstance)] 5).1 := by
    rw [buildSprites_cons]
    exact List.mem_cons_self _ _
  exact ⟨hm, record_depth_size_color [default] 5 _ hm⟩

lemma runFrames_agree : ∀ (k : ℕ) (a : AppState) (n m : ℕ),
    k < n → k < m →
    (runFrames a n).getD k [] = (runFrames a m).getD k [] := by
  intro k
  induction k with
  | zero =>
    intro a n m h1 h2
    cases n with
    | zero => omega
    | succ n =>
      cases m with
      | zero => omega
      | succ m => rfl
  | succ k ih =>
    intro a n m h1 h2
    cases n with
    | zero => omega
    | succ n =>
      cases m with
      | zero => omega
      | succ m =>
        simp only [runFrames, List.getD_cons_succ]
        exact ih _ n m (by omega) (by omega)

/-- C5: determinism.  The generator is seeded once at startup
(`SDL_srand(0)`, line 120) and the sprite arrays are a pure function of
the seed and the per-frame draws: two runs started from the same
application state (same seed, same initial buffer) produce identical
sprite arrays frame-for-frame, no matter how long either run is. -/
theorem run_deterministic (a1 a2 : AppState) (h12 : a1 = a2)
    (n m k : ℕ) (hk1 : k < n) (hk2 : k < m) :
    (runFrames a1 n).getD k [] = (runFrames a2 m).getD k [] := by
  subst h12
  exact runFrames_agree k a1 n m hk1 hk2

theorem run_deterministic_witness :
    ((AppState.mk SDLAppResult.continue 0 [default]) =
      AppState.mk SDLAppResult.continue 0 [default]) ∧
    (1 < 2 ∧ 1 < 3) ∧
    (runFrames (AppState.mk SDLAppResult.continue 0 [default]) 2).getD 1 []
      = (runFrames
          (AppState.mk SDLAppResult.continue 0 [default]) 3).getD 1 [] :=
  ⟨rfl, ⟨by norm_num, by norm_num⟩,
    run_deterministic _ _ rfl 2 3 1 (by norm_num) (by norm_num)⟩

/-- C6 counterexample: the claim says a missing shader asset makes
`SDL_AppInit` return a failure signal, with every fallible call —
shader loading included — checked immediately.  In the source the two
`LoadShader` results (lines 123-141) are never tested: with every
other call succeeding and the vertex shader load failing, init still
returns `SDL_APP_CONTINUE`. -/
theorem init_missing_shader_not_failure :
    (SDL_AppInit
      ⟨true, true, true, true, true, true, true, true,
       false, false, true, true, true, true, true⟩).result =
      SDLAppResult.continue := by decide

/-- C6 amended: initialization returns a failure signal exactly when
one of the calls the source actually checks fails (core init, TTF
init, window, base path, device creation, window claim, image load,
font load, audio device, mixer open, music load); the two shader-load
results are not checked and do not influence the returned signal. -/
theorem init_failure_checked_calls (a b c d e f si sm v1 v2 g h i j k :
    Bool) :
    (SDL_AppInit ⟨a, b, c, d, e, f, si, sm, v1, v2, g, h, i, j, k⟩).result
        = SDLAppResult.continue ↔
      (a = true ∧ b = true ∧ c = true ∧ d = true ∧ e = true ∧ f = true ∧
       g = true ∧ h = true ∧ i = true ∧ j = true ∧ k = true) := by
  simp only [SDL_AppInit]
  cases a <;> cases b <;> cases c <;> cases d <;> cases e <;> cases f <;>
    cases g <;> cases h <;> cases i <;> cases j <;> cases k <;> simp

/-- C7: a quit signal between iterations (an `SDL_EVENT_QUIT` handled
by `SDL_AppEvent`) latches `app_quit`, so the next iteration — absent
any backend failure in it — returns `SDL_APP_SUCCESS` instead of the
continue-signal; before any quit signal (`app_quit` still
`SDL_APP_CONTINUE`) each successful iteration returns
`SDL_APP_CONTINUE`, and non-quit events leave `app_quit` unchanged. -/
theorem quit_signal_transitions (app : AppState) (env : FrameEnv)
    (hc : env.cmdbufOk = true) (ha : env.acquireOk = true) :
    (SDL_AppIterate (SDL_AppEvent app SDLEvent.quit).1 env).result =
      SDLAppResult.success ∧
    (app.app_quit = SDLAppResult.continue →
      (SDL_AppIterate app env).result = SDLAppResult.continue) ∧
    (SDL_AppEvent app SDLEvent.other).1.app_quit = app.app_quit := by
  refine ⟨?_, ?_, rfl⟩
  · cases henv : env.hasTexture <;>
      simp [SDL_AppEvent, SDL_AppIterate, hc, ha, henv]
  · intro hq
    cases henv : env.hasTexture <;>
      simp [SDL_AppIterate, hc, ha, henv, hq]

theorem quit_signal_transitions_witness :
    ((FrameEnv.mk true true false).cmdbufOk = true ∧
     (FrameEnv.mk true true false).acquireOk = true) ∧
    ((SDL_AppIterate
        (SDL_AppEvent (AppState.mk SDLAppResult.continue 0 [])
          SDLEvent.quit).1 (FrameEnv.mk true true false)).result =
      SDLAppResult.success ∧
    ((AppState.mk SDLAppResult.continue 0 []).app_quit =
        SDLAppResult.continue →
      (SDL_AppIterate (AppState.mk SDLAppResult.continue 0 [])
        (FrameEnv.mk true true false)).result = SDLAppResult.continue) ∧
    (SDL_AppEvent (AppState.mk SDLAppResult.continue 0 [])
        SDLEvent.other).1.app_quit =
      (AppState.mk SDLAppResult.continue 0 []).app_quit) :=
  ⟨⟨rfl, rfl⟩,
    quit_signal_transitions (AppState.mk SDLAppResult.continue 0 [])
      (FrameEnv.mk true true false) rfl rfl⟩

/-- C8 counterexample: the claim says every field of every record —
including the two padding fields — is written anew each frame, with no
per-sprite state persisting.  The loop body (lines 420-437) never
assigns `padding_a` or `padding_b`, so whatever the buffer held before
survives the build: starting from a buffer whose records carry
`padding_a = 42` (respectively `7`), slot 0 still carries `42`
(respectively `7`) after a full build. -/
theorem buildLoop_padding_persists_cex :
    ((buildSprites (List.replicate SPRITE_COUNT
        { (default : SpriteInstance) with padding_a := 42 }) 0).1.getD 0
        default).padding_a = 42 ∧
    ((buildSprites (List.replicate SPRITE_COUNT
        { (default : SpriteInstance) with padding_a := 7 }) 0).1.getD 0
        default).padding_a = 7 :=
  ⟨rfl, rfl⟩

/-- C8 amended: in every frame in which the build step runs, the build
loop overwrites the 14 non-padding fields of every one of the 8192
records with freshly computed values that do not depend on the
previous contents, while the two padding fields of each slot keep the
values the slot already held. -/
theorem buildLoop_overwrites_written_fields (buf : List SpriteInstance)
    (s i : ℕ) (h : i < buf.length) :
    ((buildSprites buf s).1.getD i default).padding_a =
        (buf.getD i default).padding_a ∧
    ((buildSprites buf s).1.getD i default).padding_b =
        (buf.getD i default).padding_b ∧
    ∀ old : SpriteInstance,
      writtenFields ((buildSprites buf s).1.getD i default) =
        writtenFields (buildRecord old (recState s i)).1 := by
  rw [buildSprites_getD buf s i h]
  refine ⟨(buildRecord_padding _ _).1, (buildRecord_padding _ _).2, ?_⟩
  intro old
  exact buildRecord_written_independent _ old _

theorem buildLoop_overwrites_written_fields_witness :
    (0 < ([(default : SpriteInstance)]).length) ∧
    ((((buildSprites [(default : SpriteInstance)] 0).1.getD 0
          default).padding_a =
        (([(default : SpriteInstance)]).getD 0 default).padding_a) ∧
     (((buildSprites [(default : SpriteInstance)] 0).1.getD 0
          default).padding_b =
        (([(default : SpriteInstance)]).getD 0 default).padding_b) ∧
     ∀ old : SpriteInstance,
      writtenFields ((buildSprites [(default : SpriteInstance)] 0).1.getD
          0 default) =
        writtenFields (buildRecord old (recState 0 0)).1) :=
  ⟨by norm_num,
    buildLoop_overwrites_written_fields [default] 0 0 (by norm_num)⟩

/-- C9: once the first six initialization calls succeed, present-mode
negotiation picks immediate when the window supports it, else mailbox
when supported, else vsync — exactly this preference order — and the
chosen mode is the one handed to `SDL_SetGPUSwapchainParameters`,
regardless of how the rest of initialization fares. -/
theorem present_mode_preference (e : InitEnv)
    (h1 : e.sdlInitOk = true) (h2 : e.ttfInitOk = true)
    (h3 : e.windowOk = true) (h4 : e.basePathOk = true)
    (h5 : e.deviceOk = true) (h6 : e.claimOk = true) :
    (SDL_AppInit e).swapchainMode =
      some (negotiatePresentMode e.supportsImmediate e.supportsMailbox) ∧
    (e.supportsImmediate = true →
      negotiatePresentMode e.supportsImmediate e.supportsMailbox =
        PresentMode.immediate) ∧
    (e.supportsImmediate = false → e.supportsMailbox = true →
      negotiatePresentMode e.supportsImmediate e.supportsMailbox =
        PresentMode.mailbox) ∧
    (e.supportsImmediate = false → e.supportsMailbox = false →
      negotiatePresentMode e.supportsImmediate e.supportsMailbox =
        PresentMode.vsync) := by
  obtain ⟨q1, q2, q3, q4, q5, q6, si, sm, v1, v2, q7, q8, q9, q10, q11⟩
    := e
  simp only at h1 h2 h3 h4 h5 h6
  subst h1 h2 h3 h4 h5 h6
  refine ⟨?_, ?_, ?_, ?_⟩
  · cases q7 <;> cases q8 <;> cases q9 <;> cases q10 <;> cases q11 <;>
      simp [SDL_AppInit]
  · intro hsi
    simp only at hsi
    subst hsi
    simp [negotiatePresentMode]
  · intro hsi hsm
    simp only at hsi hsm
    subst hsi
    subst hsm
    simp [negotiatePresentMode]
  · intro hsi hsm
    simp only at hsi hsm
    subst hsi
    subst hsm
    simp [negotiatePresentMode]

theorem present_mode_preference_witness :
    ((InitEnv.mk true true true true true true false true true true
        true true true true true).sdlInitOk = true) ∧
    ((SDL_AppInit (InitEnv.mk true true true true true true false true
        true true true true true true true)).swapchainMode =
      some (negotiatePresentMode false true)) ∧
    (negotiatePresentMode false true = PresentMode.mailbox) := by
  have h := present_mode_preference
    (InitEnv.mk true true true true true true false true true true true
      true true true true) rfl rfl rfl rfl rfl rfl
  exact ⟨rfl, h.1, h.2.2.1 rfl rfl⟩

/-- C10: in an iteration where the command buffer and the swapchain
acquisition succeed but the acquired swapchain texture is NULL, the
whole build/upload/draw step is skipped — the generator state and the
sprite transfer buffer are unchanged — yet the command buffer is still
submitted and the iteration returns the current quit status, which is
not a failure signal. -/
theorem null_swapchain_skips_build (app : AppState) (env : FrameEnv)
    (hc : env.cmdbufOk = true) (ha : env.acquireOk = true)
    (ht : env.hasTexture = false)
    (hq : app.app_quit ≠ SDLAppResult.failure) :
    (SDL_AppIterate app env).state.rngState = app.rngState ∧
    (SDL_AppIterate app env).state.spriteBuffer = app.spriteBuffer ∧
    (SDL_AppIterate app env).submitted = true ∧
    (SDL_AppIterate app env).result = app.app_quit ∧
    (SDL_AppIterate app env).result ≠ SDLAppResult.failure := by
  refine ⟨?_, ?_, ?_, ?_, ?_⟩ <;>
    simp [SDL_AppIterate, hc, ha, ht, hq]

theorem null_swapchain_skips_build_witness :
    ((AppState.mk SDLAppResult.continue 3 [default]).app_quit ≠
        SDLAppResult.failure) ∧
    ((SDL_AppIterate (AppState.mk SDLAppResult.continue 3 [default])
        (FrameEnv.mk true true false)).state.rngState =
      (AppState.mk SDLAppResult.continue 3 [default]).rngState ∧
     (SDL_AppIterate (AppState.mk SDLAppResult.continue 3 [default])
        (FrameEnv.mk true true false)).state.spriteBuffer =
      (AppState.mk SDLAppResult.continue 3 [default]).spriteBuffer ∧
     (SDL_AppIterate (AppState.mk SDLAppResult.continue 3 [default])
        (FrameEnv.mk true true false)).submitted = true ∧
     (SDL_AppIterate (AppState.mk SDLAppResult.continue 3 [default])
        (FrameEnv.mk true true false)).result =
      (AppState.mk SDLAppResult.continue 3 [default]).app_quit ∧
     (SDL_AppIterate (AppState.mk SDLAppResult.continue 3 [default])
        (FrameEnv.mk true true false)).result ≠ SDLAppResult.failure) :=
  ⟨by simp,
    null_swapchain_skips_build
      (AppState.mk SDLAppResult.continue 3 [default])
      (FrameEnv.mk true true false) rfl rfl rfl (by simp)⟩
